import Mathlib

/-!
Shallow embedding of `src/add_mitigation_impact.py`, a SonarQube reporting
script: it paginates through `/api/issues/search`, enriches each issue's
`message` with rule metadata from `/api/rules/show`, and writes the result
to a JSON file.

Modelling conventions:
* JSON values are the inductive `Json` below; Python dicts are association
  lists with distinct keys (Python's `json.loads` produces dicts, and every
  object built here has distinct keys), `dict.get` is `lookupField`, and
  `d[k] = v` is `setField` (replace in place, append at the end for a new
  key — Python dicts preserve insertion order the same way).
* The network is a parameter: the issues-search endpoint is a function
  `search : Nat × Nat → Except Unit Json` taking the `(ps, p)` query
  parameters (the script always sends `ps = 500`; `componentKeys` and the
  basic-auth credentials are fixed constants and carry no information), and
  the rules endpoint is `ruleServer : Json → Except Unit Json` taking the
  `key` parameter.  `Except.error ()` covers `requests.raise_for_status`
  failures and unsendable requests.
* Every Python exception (HTTP error, `KeyError`, `AttributeError`,
  `TypeError`) is modelled as `Except.error ()`: the script's `main` wraps
  everything in one `try/except Exception` so all exceptions behave alike
  (abort, no file written).  Python iteration of non-list iterables (e.g.
  `list.extend` over a string) is outside the server contract and is
  likewise mapped to failure.
* The `while True` pagination loop is given a fuel parameter; running out
  of fuel is a (never-written-file) failure, matching non-termination in
  that no output is produced.
* Functions also return the trace of network requests they issued, in
  order, so that request-counting claims can be stated.
-/

namespace AddMitigationImpact

/-- A parsed JSON value (the result of `response.json()` / the argument of
`json.dump`).  Numbers are integers: every numeric field this script reads
(`pageIndex`, `pageSize`, `total`) is an integer in the API. -/
inductive Json where
  | null
  | bool (b : Bool)
  | num (n : Int)
  | str (s : String)
  | arr (elems : List Json)
  | obj (fields : List (String × Json))

/-- Python `dict.get(key)` on an association list: first binding wins (keys
are distinct in every dict the script handles, so this matches Python). -/
def lookupField : List (String × Json) → String → Option Json
  | [], _ => none
  | (k, v) :: rest, key => if k = key then some v else lookupField rest key

/-- Python `d[key] = v` on a dict: replace the existing binding in place, or
append a new one at the end (Python dicts preserve insertion order this
way). -/
def setField : List (String × Json) → String → Json → List (String × Json)
  | [], key, v => [(key, v)]
  | (k, w) :: rest, key, v =>
      if k = key then (key, v) :: rest else (k, w) :: setField rest key v

/-- Python truthiness of a parsed-JSON value (`if first_page_data:`,
`if impacts:`): `None`, `False`, `0`, `""`, `[]`, `{}` are falsy. -/
def Json.truthy : Json → Bool
  | .null => false
  | .bool b => b
  | .num n => n != 0
  | .str s => s != ""
  | .arr xs => !xs.isEmpty
  | .obj fs => !fs.isEmpty

/-- Python `repr()` of a parsed-JSON value, used by `str()` inside
f-strings for non-string values nested in containers.  (Quote-escaping
inside strings is not modelled; no string this development evaluates it on
contains a quote.) -/
def pyRepr : Json → String
  | .null => "None"
  | .bool true => "True"
  | .bool false => "False"
  | .num n => toString n
  | .str s => "'" ++ s ++ "'"
  | .arr xs => "[" ++ String.intercalate ", " (xs.attach.map (fun x => pyRepr x.1)) ++ "]"
  | .obj fs =>
      "\x7b" ++ String.intercalate ", " (fs.attach.map (fun p => "'" ++ p.1.1 ++ "': " ++ pyRepr p.1.2)) ++ "\x7d"
decreasing_by
  · have h := List.sizeOf_lt_of_mem x.2
    simp only [Json.arr.sizeOf_spec]
    omega
  · have h := List.sizeOf_lt_of_mem p.2
    have h2 : sizeOf p.1.2 < sizeOf p.1 := by
      obtain ⟨k, v⟩ := p.1
      simp
    simp only [Json.obj.sizeOf_spec]
    omega

/-- The characters Python's no-argument `str.strip()` removes (the ASCII
ones; the API strings involved are ASCII). -/
def isPyWhite (c : Char) : Bool :=
  c == ' ' || c == '\t' || c == '\n' || c == '\r' || c == '\x0b' || c == '\x0c'

/-- Python `s.strip()`: drop whitespace from both ends. -/
def pyStrip (s : String) : String :=
  String.mk (((s.toList.dropWhile isPyWhite).reverse.dropWhile isPyWhite).reverse)

/-- Rendering `str(x)` of an optional dict entry in an f-string: a missing key
(`dict.get` returned `None`) prints as `None`, a string prints as itself,
anything else prints via `repr`-style rendering. -/
def pyStr : Option Json → String
  | none => "None"
  | some (.str s) => s
  | some .null => "None"
  | some (.bool true) => "True"
  | some (.bool false) => "False"
  | some (.num n) => toString n
  | some (.arr xs) => pyRepr (.arr xs)
  | some (.obj fs) => pyRepr (.obj fs)

/-- Line 35, `issues_data.get("issues", [])` fed to `list.extend`: missing
field defaults to `[]`; a non-object response or a non-array `issues` value
raises in Python (`AttributeError` / `TypeError`-style) and is modelled as
failure. -/
def getIssues : Json → Except Unit (List Json)
  | .obj fs =>
      match lookupField fs "issues" with
      | none => .ok []
      | some (.arr xs) => .ok xs
      | some _ => .error ()
  | _ => .error ()

/-- Line 37, `issues_data.get("paging", {})`: missing field defaults to the
empty dict; a non-object `paging` value would raise on the subsequent
`.get` calls. -/
def getPaging : Json → Except Unit (List (String × Json))
  | .obj fs =>
      match lookupField fs "paging" with
      | none => .ok []
      | some (.obj pf) => .ok pf
      | some _ => .error ()
  | _ => .error ()

/-- Line 38, `paging.get(k, default)` used in integer arithmetic: a missing
key yields the default, a number yields itself, a Python bool is an int
(`True = 1`, `False = 0`), and any other value makes the
multiplication/comparison raise. -/
def getNumD (fs : List (String × Json)) (key : String) (dflt : Int) : Except Unit Int :=
  match lookupField fs key with
  | none => .ok dflt
  | some (.num n) => .ok n
  | some (.bool b) => .ok (if b then 1 else 0)
  | some _ => .error ()

/-- Lines 43-44, `if first_page_data: first_page_data["issues"] = all_issues`:
only mutates a truthy envelope; indexing a truthy non-dict would raise. -/
def assignIssues (first : Json) (acc : List Json) : Except Unit Json :=
  if first.truthy then
    match first with
    | .obj fs => .ok (.obj (setField fs "issues" (.arr acc)))
    | _ => .error ()
  else .ok first

/-- Lines 35-38 on one page response `d` (`issues_data`): read the page's
issues, its paging dict (default `{}`), and the three paging numbers
(defaults `pageIndex = 1`, `pageSize = 500`, `total = 0`), in that order,
propagating the first exception. -/
def pageData (d : Json) : Except Unit (List Json × Int × Int × Int) :=
  match getIssues d with
  | .error _ => .error ()
  | .ok li =>
    match getPaging d with
    | .error _ => .error ()
    | .ok pgf =>
      match getNumD pgf "pageIndex" 1, getNumD pgf "pageSize" 500, getNumD pgf "total" 0 with
      | .ok pageIndex, .ok pageSize, .ok total => .ok (li, pageIndex, pageSize, total)
      | _, _, _ => .error ()

/-- Lines 27-41, the body of `fetch_issues`' `while True` loop.
`search` is the issues-search endpoint applied to the `(ps, p)` query
parameters (the script always sends `ps = 500`); `p` is `params["p"]`,
`acc` is `all_issues`, `first` is `first_page_data` (`none` = Python
`None`).  Returns the list of page requests issued (as `(ps, p)` pairs, in
order) and either the loop's return value or failure.  `fuel` bounds the
number of iterations; exhaustion is modelled as failure. -/
def fetchIssuesLoop (search : Nat × Nat → Except Unit Json) :
    Nat → Nat → List Json → Option Json → List (Nat × Nat) × Except Unit Json
  | 0, _, _, _ => ([], .error ())
  | fuel + 1, p, acc, first =>
    match search (500, p) with
    | .error _ => ([(500, p)], .error ())
    | .ok d =>
      let first1 := first.getD d
      match pageData d with
      | .error _ => ([(500, p)], .error ())
      | .ok (li, pageIndex, pageSize, total) =>
        if pageIndex * pageSize ≥ total then
          ([(500, p)], assignIssues first1 (acc ++ li))
        else
          let r := fetchIssuesLoop search fuel (p + 1) (acc ++ li) (some first1)
          ((500, p) :: r.1, r.2)

/-- Lines 19-46, `fetch_issues()`: run the pagination loop from page 1 with
an empty accumulator and no first page recorded. -/
def fetch_issues (search : Nat × Nat → Except Unit Json) (fuel : Nat) :
    List (Nat × Nat) × Except Unit Json :=
  fetchIssuesLoop search fuel 1 [] none

/-- Lines 68-69, one line of the `impacts` join:
`f"Software Quality: {impact.get('softwareQuality', 'N/A')}, Severity: {impact.get('severity', 'N/A')}"`.
A non-dict impact entry raises on `.get`. -/
def impactLine : Json → Except Unit String
  | .obj efs =>
      .ok ("Software Quality: " ++ pyStr (some ((lookupField efs "softwareQuality").getD (.str "N/A")))
        ++ ", Severity: " ++ pyStr (some ((lookupField efs "severity").getD (.str "N/A"))))
  | _ => .error ()

/-- A Python list comprehension whose element expression may raise:
elements are produced left to right and the first exception propagates. -/
def mapExcept (f : α → Except Unit β) : List α → Except Unit (List β)
  | [] => .ok []
  | x :: xs =>
    match f x with
    | .error _ => .error ()
    | .ok y =>
      match mapExcept f xs with
      | .error _ => .error ()
      | .ok ys => .ok (y :: ys)

/-- Lines 65-70: `impacts = rule_details.get("impacts", [])`, then
`"\n".join(...)` over the entries when `impacts` is truthy, else the empty
string.  A truthy non-list `impacts` value raises when iterated /
`.get`-ed in Python and is modelled as failure. -/
def impactText (fs : List (String × Json)) : Except Unit String :=
  match lookupField fs "impacts" with
  | none => .ok ""
  | some j =>
      if j.truthy then
        match j with
        | .arr xs =>
          match mapExcept impactLine xs with
          | .error _ => .error ()
          | .ok lines => .ok (String.intercalate "\n" lines)
        | _ => .error ()
      else .ok ""

/-- Line 62, `rule_details.get('htmlDesc', '')` fed to `.strip()`: missing
defaults to the empty string; a present non-string raises on `.strip`. -/
def getHtmlDesc (fs : List (String × Json)) : Except Unit String :=
  match lookupField fs "htmlDesc" with
  | none => .ok ""
  | some (.str s) => .ok s
  | some _ => .error ()

/-- Lines 49-72, `fetch_rule_details(rule_key)`: one request to the rules
endpoint, then the mitigation block (triple-quoted f-string of lines 58-63,
which begins and ends with a newline, then `.strip()`-ed) and the impact
text (joined then `.strip()`-ed).  `ruleServer` is the rules endpoint
applied to the `key` query parameter; `rule_key` is whatever was stored in
the issue's `rule` field. -/
def fetch_rule_details (ruleServer : Json → Except Unit Json) (rule_key : Json) :
    Except Unit (String × String) :=
  match ruleServer rule_key with
  | .error _ => .error ()
  | .ok body =>
    match body with
    | .obj bfs =>
      match (lookupField bfs "rule").getD (.obj []) with
      | .obj fs =>
        match getHtmlDesc fs with
        | .error _ => .error ()
        | .ok desc =>
          let mitigation := "\nRule Key: " ++ pyStr (lookupField fs "key")
            ++ "\nName: " ++ pyStr (lookupField fs "name")
            ++ "\nSeverity: " ++ pyStr (lookupField fs "severity")
            ++ "\nDescription: " ++ pyStrip desc ++ "\n"
          match impactText fs with
          | .error _ => .error ()
          | .ok impactDetails => .ok (pyStrip mitigation, pyStrip impactDetails)
      | _ => .error ()
    | _ => .error ()

/-- Line 78, `"message" in issue`: key test on a dict, element test on a
list, substring test on a string; on any other value Python's `in` raises. -/
def memMessage : Json → Except Unit Bool
  | .obj fs => .ok (lookupField fs "message").isSome
  | .str s => .ok ((s.splitOn "message").length > 1)
  | .arr xs => .ok (xs.any (fun x => match x with | .str s => s == "message" | _ => false))
  | _ => .error ()

/-- Outcome of one iteration of the `update_messages` loop body (lines
78-80) on one issue: either the (possibly rewritten) issue together with
the rule-lookup requests it issued, or an exception, with the requests
issued before the exception. -/
inductive StepResult where
  | updated (newIssue : Json) (keys : List Json)
  | failed (keys : List Json)

/-- Lines 78-80, the loop body on one issue: if `"message" in issue`,
evaluate `issue["rule"]` (a `KeyError` if absent, a `TypeError` on a
non-dict), call `fetch_rule_details` on it, and rewrite
`issue["message"] = f"Mitigation: {mitigation}\nImpact: {impact}\nOriginal: {issue['message']}"`. -/
def stepIssue (fetchRule : Json → Except Unit (String × String)) (issue : Json) : StepResult :=
  match memMessage issue with
  | .error _ => .failed []
  | .ok false => .updated issue []
  | .ok true =>
    match issue with
    | .obj fs =>
      match lookupField fs "rule" with
      | none => .failed []
      | some rk =>
        match fetchRule rk with
        | .error _ => .failed [rk]
        | .ok (mitigation, impact) =>
            .updated
              (.obj (setField fs "message"
                (.str ("Mitigation: " ++ mitigation ++ "\nImpact: " ++ impact
                  ++ "\nOriginal: " ++ pyStr (lookupField fs "message")))))
              [rk]
    | _ => .failed []

/-- State of the issue list after `update_messages` (lines 75-81) runs (or
raises): `issues` is the list object's content (Python mutates it in
place, so on an exception the already-processed mutations persist and the
failing issue and its successors are untouched), `trace` is the sequence
of rule keys sent to the rules endpoint in order, and `ok` says whether
the loop finished without raising. -/
structure UpdateResult where
  issues : List Json
  trace : List Json
  ok : Bool

/-- Lines 75-81, `update_messages(issues)`: process the issues left to
right, stopping at the first exception. -/
def update_messages (fetchRule : Json → Except Unit (String × String)) :
    List Json → UpdateResult
  | [] => ⟨[], [], true⟩
  | issue :: rest =>
    match stepIssue fetchRule issue with
    | .updated newIssue keys =>
        let r := update_messages fetchRule rest
        ⟨newIssue :: r.issues, keys ++ r.trace, r.ok⟩
    | .failed keys => ⟨issue :: rest, keys, false⟩

/-- Lines 84-100, `main()`: fetch, enrich, and dump.  The one
`try/except Exception` means any exception anywhere aborts before the
output file is opened, so the result is `some` of the JSON document
written to the report file, or `none` when nothing is written.  `fuel`
bounds the pagination loop.  (`data['issues']` on line 88 is a `KeyError`
when the envelope has no `issues` field, and a non-dict / non-list shape
raises on lines 88/91; both abort with nothing written.) -/
def main (search : Nat × Nat → Except Unit Json) (ruleServer : Json → Except Unit Json)
    (fuel : Nat) : Option Json :=
  match fetch_issues search fuel with
  | (_, .error _) => none
  | (_, .ok data) =>
    match data with
    | .obj fs =>
      match lookupField fs "issues" with
      | some (.arr issues) =>
          let r := update_messages (fetch_rule_details ruleServer) issues
          if r.ok then some (.obj (setField fs "issues" (.arr r.issues))) else none
      | some _ => none
      | none => none
    | _ => none

/-- The rule keys `main` sends to the rules endpoint during its run, in
order (an observation of the run used to state request-counting claims). -/
def mainRuleTrace (search : Nat × Nat → Except Unit Json)
    (ruleServer : Json → Except Unit Json) (fuel : Nat) : List Json :=
  match fetch_issues search fuel with
  | (_, .error _) => []
  | (_, .ok data) =>
    match data with
    | .obj fs =>
      match lookupField fs "issues" with
      | some (.arr issues) => (update_messages (fetch_rule_details ruleServer) issues).trace
      | some _ => []
      | none => []
    | _ => []

/-- A paging dict `{pageIndex: i, pageSize: 500, total: 1200}` (test
scenario of the spec: page size 500, total 1200). -/
def paging1200 (i : Int) : Json :=
  Json.obj [("pageIndex", Json.num i), ("pageSize", Json.num 500), ("total", Json.num 1200)]

/-- A page envelope `{issues: l, paging: {pageIndex: i, pageSize: 500, total: 1200}}`. -/
def page1200 (l : List Json) (i : Int) : Json :=
  Json.obj [("issues", Json.arr l), ("paging", paging1200 i)]

/-- An issues-search endpoint with three pages (total 1200, page size 500)
carrying the given issue lists; any request outside pages 1-3 with
`ps = 500` fails, so a successful run certifies that only those three
requests were issued. -/
def threePages (l1 l2 l3 : List Json) : Nat × Nat → Except Unit Json :=
  fun q =>
    if q = (500, 1) then .ok (page1200 l1 1)
    else if q = (500, 2) then .ok (page1200 l2 2)
    else if q = (500, 3) then .ok (page1200 l3 3)
    else .error ()

/-- An optional string field of a JSON object (helper for building
rule-lookup responses in statements). -/
def optStrField (key : String) : Option String → List (String × Json)
  | none => []
  | some s => [(key, Json.str s)]

/-- One impact entry `{softwareQuality?, severity?}` built from optional
string values. -/
def impactEntry (e : Option String × Option String) : Json :=
  Json.obj (optStrField "softwareQuality" e.1 ++ optStrField "severity" e.2)

/-- A rule-lookup response `{rule: {impacts: [...]}}` whose impact entries
carry the given optional `softwareQuality`/`severity` strings. -/
def impactsBody (es : List (Option String × Option String)) : Json :=
  Json.obj [("rule", Json.obj [("impacts", Json.arr (es.map impactEntry))])]

/-- The `rule` field of an issue, when the issue is an object that has one
(projection used to state request-trace properties). -/
def ruleField : Json → Option Json
  | .obj fs => lookupField fs "rule"
  | _ => none

/-! ### General lemmas about the embedded operations -/

theorem lookupField_setField_self (fs : List (String × Json)) (key : String) (v : Json) :
    lookupField (setField fs key v) key = some v := by
  induction fs with
  | nil => simp [setField, lookupField]
  | cons kv rest ih =>
    obtain ⟨k, w⟩ := kv
    by_cases h : k = key
    · simp [setField, h, lookupField]
    · simp [setField, h, lookupField, ih]

theorem lookupField_setField_ne (fs : List (String × Json)) (key k : String) (v : Json)
    (h : k ≠ key) : lookupField (setField fs key v) k = lookupField fs k := by
  have h2 : ∀ kk : String, kk = key → ¬ (kk = k) := by
    intro kk hkk hc
    rw [hkk] at hc
    exact h hc.symm
  induction fs with
  | nil => simp [setField, lookupField, h2 key rfl]
  | cons kv rest ih =>
    obtain ⟨k1, w⟩ := kv
    by_cases h1 : k1 = key
    · subst h1
      simp [setField, lookupField, h2 k1 rfl]
    · simp [setField, h1, lookupField, ih]

theorem lookupField_ne_nil {fs : List (String × Json)} {key : String} {v : Json}
    (h : lookupField fs key = some v) : fs.isEmpty = false := by
  cases fs with
  | nil => simp [lookupField] at h
  | cons kv rest => rfl

theorem stepIssue_updated_keys {f : Json → Except Unit (String × String)} {i i' : Json}
    {ks : List Json} (h : stepIssue f i = .updated i' ks) :
    ∀ k ∈ ks, ∃ v, f k = .ok v := by
  intro k hk
  unfold stepIssue at h
  split at h
  · cases h
  · cases h
    simp at hk
  · split at h
    · split at h
      · cases h
      · split at h
        · cases h
        · rename_i heq2
          cases h
          simp at hk
          subst hk
          exact ⟨_, heq2⟩
    · cases h

theorem um_issues_length (f : Json → Except Unit (String × String)) (l : List Json) :
    (update_messages f l).issues.length = l.length := by
  induction l with
  | nil => rfl
  | cons i rest ih =>
    cases h : stepIssue f i with
    | updated i' ks => simp [update_messages, h, ih]
    | failed ks => simp [update_messages, h]

theorem um_append (f : Json → Except Unit (String × String)) (l1 l2 : List Json)
    (h : (update_messages f l1).ok = true) :
    update_messages f (l1 ++ l2) =
      ⟨(update_messages f l1).issues ++ (update_messages f l2).issues,
       (update_messages f l1).trace ++ (update_messages f l2).trace,
       (update_messages f l2).ok⟩ := by
  induction l1 with
  | nil => simp [update_messages]
  | cons i rest ih =>
    cases hs : stepIssue f i with
    | updated i' ks =>
      have h2 : (update_messages f rest).ok = true := by
        simpa [update_messages, hs] using h
      simp [update_messages, hs, ih h2]
    | failed ks => simp [update_messages, hs] at h

theorem um_err_of_mem_trace (f : Json → Except Unit (String × String)) (l : List Json)
    (k : Json) (hk : k ∈ (update_messages f l).trace) (hf : f k = .error ()) :
    (update_messages f l).ok = false := by
  induction l with
  | nil => simp [update_messages] at hk
  | cons i rest ih =>
    cases hs : stepIssue f i with
    | updated i' ks =>
      simp only [update_messages, hs] at hk ⊢
      rcases List.mem_append.mp hk with h1 | h2
      · obtain ⟨v, hv⟩ := stepIssue_updated_keys hs k h1
        rw [hf] at hv
        cases hv
      · exact ih h2
    | failed ks => simp [update_messages, hs]

theorem fetchIssuesLoop_request_err (search : Nat × Nat → Except Unit Json)
    (fuel p : Nat) (acc : List Json) (first : Option Json)
    (h : search (500, p) = .error ()) :
    fetchIssuesLoop search (fuel + 1) p acc first = ([(500, p)], .error ()) := by
  simp [fetchIssuesLoop, h]

theorem fetchIssuesLoop_stop (search : Nat × Nat → Except Unit Json)
    (fuel p : Nat) (acc : List Json) (first : Option Json) (d : Json)
    (li : List Json) (pageIndex pageSize total : Int)
    (hd : search (500, p) = .ok d)
    (hpd : pageData d = .ok (li, pageIndex, pageSize, total))
    (hstop : total ≤ pageIndex * pageSize) :
    fetchIssuesLoop search (fuel + 1) p acc first =
      ([(500, p)], assignIssues (first.getD d) (acc ++ li)) := by
  simp [fetchIssuesLoop, hd, hpd, hstop]

theorem fetchIssuesLoop_cont (search : Nat × Nat → Except Unit Json)
    (fuel p : Nat) (acc : List Json) (first : Option Json) (d : Json)
    (li : List Json) (pageIndex pageSize total : Int)
    (hd : search (500, p) = .ok d)
    (hpd : pageData d = .ok (li, pageIndex, pageSize, total))
    (hcont : pageIndex * pageSize < total) :
    fetchIssuesLoop search (fuel + 1) p acc first =
      ((500, p) :: (fetchIssuesLoop search fuel (p + 1) (acc ++ li) (some (first.getD d))).1,
       (fetchIssuesLoop search fuel (p + 1) (acc ++ li) (some (first.getD d))).2) := by
  simp [fetchIssuesLoop, hd, hpd, not_le.mpr hcont]

theorem fetchIssuesLoop_trace (search : Nat × Nat → Except Unit Json) :
    ∀ (fuel p : Nat) (acc : List Json) (first : Option Json),
      ∃ n, (fetchIssuesLoop search fuel p acc first).1 =
        (List.range' p n).map (fun q => (500, q)) := by
  intro fuel
  induction fuel with
  | zero => exact fun p acc first => ⟨0, rfl⟩
  | succ fuel ih =>
    intro p acc first
    cases hd : search (500, p) with
    | error e =>
      exact ⟨1, by simp [fetchIssuesLoop_request_err search fuel p acc first hd, List.range'_one]⟩
    | ok d =>
      cases hpd : pageData d with
      | error e => exact ⟨1, by simp [fetchIssuesLoop, hd, hpd, List.range'_one]⟩
      | ok t =>
        obtain ⟨li, pageIndex, pageSize, total⟩ := t
        by_cases hc : total ≤ pageIndex * pageSize
        · exact ⟨1, by
            simp [fetchIssuesLoop_stop search fuel p acc first d li _ _ _ hd hpd hc,
              List.range'_one]⟩
        · obtain ⟨n, hn⟩ := ih (p + 1) (acc ++ li) (some (first.getD d))
          refine ⟨n + 1, ?_⟩
          rw [fetchIssuesLoop_cont search fuel p acc first d li _ _ _ hd hpd (not_le.mp hc)]
          simp [hn, List.range'_succ]

theorem fetch_issues_trace_nodup (search : Nat × Nat → Except Unit Json) (fuel : Nat) :
    (fetch_issues search fuel).1.Nodup := by
  obtain ⟨n, hn⟩ := fetchIssuesLoop_trace search fuel 1 [] none
  rw [fetch_issues, hn]
  refine (List.nodup_range' 1 n 1 (by norm_num)).map ?_
  intro a b hab
  simpa using hab

theorem fetchIssuesLoop_err_of_mem_trace (search : Nat × Nat → Except Unit Json) :
    ∀ (fuel p : Nat) (acc : List Json) (first : Option Json) (q : Nat),
      (500, q) ∈ (fetchIssuesLoop search fuel p acc first).1 →
      search (500, q) = .error () →
      (fetchIssuesLoop search fuel p acc first).2 = .error () := by
  intro fuel
  induction fuel with
  | zero =>
    intro p acc first q hq he
    rfl
  | succ fuel ih =>
    intro p acc first q hq he
    cases hd : search (500, p) with
    | error e => simp [fetchIssuesLoop_request_err search fuel p acc first hd]
    | ok d =>
      cases hpd : pageData d with
      | error e => simp [fetchIssuesLoop, hd, hpd]
      | ok t =>
        obtain ⟨li, pageIndex, pageSize, total⟩ := t
        by_cases hc : total ≤ pageIndex * pageSize
        · rw [fetchIssuesLoop_stop search fuel p acc first d li _ _ _ hd hpd hc] at hq
          simp at hq
          rw [hq] at he
          rw [he] at hd
          cases hd
        · rw [fetchIssuesLoop_cont search fuel p acc first d li _ _ _ hd hpd (not_le.mp hc)] at hq ⊢
          simp only [List.mem_cons] at hq
          rcases hq with h1 | h2
          · have : q = p := by simpa using h1
            rw [this] at he
            rw [he] at hd
            cases hd
          · exact ih (p + 1) (acc ++ li) (some (first.getD d)) q h2 he

theorem um_cons_msg (f : Json → Except Unit (String × String)) (fs : List (String × Json))
    (rest : List Json) (m rk : Json) (mit imp : String)
    (hm : lookupField fs "message" = some m)
    (hr : lookupField fs "rule" = some rk)
    (hf : f rk = .ok (mit, imp)) :
    update_messages f (Json.obj fs :: rest) =
      ⟨Json.obj (setField fs "message" (.str ("Mitigation: " ++ mit ++ "\nImpact: " ++ imp
          ++ "\nOriginal: " ++ pyStr (some m)))) :: (update_messages f rest).issues,
       rk :: (update_messages f rest).trace,
       (update_messages f rest).ok⟩ := by
  have hs : stepIssue f (Json.obj fs) = .updated
      (Json.obj (setField fs "message" (.str ("Mitigation: " ++ mit ++ "\nImpact: " ++ imp
        ++ "\nOriginal: " ++ pyStr (some m))))) [rk] := by
    simp [stepIssue, memMessage, hm, hr, hf]
  simp [update_messages, hs]

/-! ### Claims -/

/-- Claim C1: the Issue Fetcher requests pages with an incrementing page
index starting at 1 and page size 500, accumulating each page's issues in
arrival order, and stops paginating exactly when
`pageIndex * pageSize >= total`, the values taken from the just-fetched
page's paging metadata (first conjunct: it stops at a page satisfying the
condition; second conjunct: it continues to page `p + 1` otherwise); in
particular, for page size 500 and total 1200 it issues exactly 3 page
requests (p = 1, 2, 3), accumulates the three pages' issues in order, and
stops. -/
theorem c1_pagination :
    (∀ (search : Nat × Nat → Except Unit Json) (fuel p : Nat) (acc : List Json)
        (first : Option Json) (d : Json) (li : List Json) (pageIndex pageSize total : Int),
        search (500, p) = .ok d →
        pageData d = .ok (li, pageIndex, pageSize, total) →
        total ≤ pageIndex * pageSize →
        (fetchIssuesLoop search (fuel + 1) p acc first).1 = [(500, p)]) ∧
    (∀ (search : Nat × Nat → Except Unit Json) (fuel p : Nat) (acc : List Json)
        (first : Option Json) (d : Json) (li : List Json) (pageIndex pageSize total : Int),
        search (500, p) = .ok d →
        pageData d = .ok (li, pageIndex, pageSize, total) →
        pageIndex * pageSize < total →
        (fetchIssuesLoop search (fuel + 1) p acc first).1 =
          (500, p) :: (fetchIssuesLoop search fuel (p + 1) (acc ++ li) (some (first.getD d))).1) ∧
    (∀ l1 l2 l3 : List Json,
        fetch_issues (threePages l1 l2 l3) 10 =
          ([(500, 1), (500, 2), (500, 3)],
           .ok (Json.obj [("issues", Json.arr (l1 ++ l2 ++ l3)), ("paging", paging1200 1)]))) := by
  refine ⟨?_, ?_, ?_⟩
  · intro search fuel p acc first d li pageIndex pageSize total hd hpd hstop
    rw [fetchIssuesLoop_stop search fuel p acc first d li pageIndex pageSize total hd hpd hstop]
  · intro search fuel p acc first d li pageIndex pageSize total hd hpd hcont
    rw [fetchIssuesLoop_cont search fuel p acc first d li pageIndex pageSize total hd hpd hcont]
  · intro l1 l2 l3
    simp [fetch_issues, fetchIssuesLoop, threePages, page1200, paging1200, pageData,
      getIssues, getPaging, getNumD, lookupField, setField, assignIssues, Json.truthy]

/-- Witness for C1: a page reporting `pageIndex = 3`, `pageSize = 500`,
`total = 1200` stops the loop (1500 ≥ 1200), and a page reporting
`pageIndex = 1` continues to page 2 (500 < 1200). -/
theorem c1_pagination_witness :
    (fetchIssuesLoop (threePages [] [] []) (0 + 1) 3 [] none).1 = [(500, 3)] ∧
    (fetchIssuesLoop (threePages [] [] []) (1 + 1) 1 [] none).1 =
      (500, 1) :: (fetchIssuesLoop (threePages [] [] []) 1 2 ([] ++ [])
        (some ((none : Option Json).getD (page1200 [] 1)))).1 :=
  ⟨c1_pagination.1 (threePages [] [] []) 0 3 [] none (page1200 [] 3) [] 3 500 1200
      rfl rfl (by norm_num),
   c1_pagination.2.1 (threePages [] [] []) 1 1 [] none (page1200 [] 1) [] 1 500 1200
      rfl rfl (by norm_num)⟩

/-- Claim C2: for every issue that has a `message` field (placed anywhere
in the sequence, after a prefix the enricher processed without an
exception), the Enricher fetches that issue's rule details and overwrites
`message` with exactly
`"Mitigation: {mitigation}\nImpact: {impact}\nOriginal: {original_message}"`,
leaving its other fields as they were. -/
theorem c2_message_rewrite (f : Json → Except Unit (String × String)) (l1 l2 : List Json)
    (fs : List (String × Json)) (m : String) (rk : Json) (mit imp : String)
    (h1 : (update_messages f l1).ok = true)
    (hm : lookupField fs "message" = some (.str m))
    (hr : lookupField fs "rule" = some rk)
    (hf : f rk = .ok (mit, imp)) :
    (update_messages f (l1 ++ Json.obj fs :: l2)).issues =
      (update_messages f l1).issues ++
        Json.obj (setField fs "message"
          (.str ("Mitigation: " ++ mit ++ "\nImpact: " ++ imp ++ "\nOriginal: " ++ m)))
          :: (update_messages f l2).issues := by
  rw [um_append f l1 (Json.obj fs :: l2) h1]
  rw [um_cons_msg f fs l2 (.str m) rk mit imp hm hr hf]
  simp [pyStr]

/-- Witness for C2, the spec's concrete example: message `"M1"`, mitigation
text `"Rule Key: R1\n..."`, impact text `"Software Quality: X, Severity: Y"`
produce exactly
`"Mitigation: Rule Key: R1\n...\nImpact: Software Quality: X, Severity: Y\nOriginal: M1"`. -/
theorem c2_message_rewrite_witness :
    (update_messages
        (fun _ => Except.ok ("Rule Key: R1\n...", "Software Quality: X, Severity: Y"))
        ([] ++ Json.obj [("rule", Json.str "R1"), ("message", Json.str "M1")] :: [])).issues =
      [] ++ Json.obj [("rule", Json.str "R1"), ("message",
          Json.str "Mitigation: Rule Key: R1\n...\nImpact: Software Quality: X, Severity: Y\nOriginal: M1")]
        :: [] :=
  c2_message_rewrite (fun _ => Except.ok ("Rule Key: R1\n...", "Software Quality: X, Severity: Y"))
    [] [] [("rule", Json.str "R1"), ("message", Json.str "M1")] "M1" (Json.str "R1")
    "Rule Key: R1\n..." "Software Quality: X, Severity: Y" rfl rfl rfl rfl

theorem fetch_rule_details_err (ruleServer : Json → Except Unit Json) (k : Json)
    (h : ruleServer k = .error ()) : fetch_rule_details ruleServer k = .error () := by
  simp [fetch_rule_details, h]

theorem main_none_of_fetch_err (search : Nat × Nat → Except Unit Json)
    (ruleServer : Json → Except Unit Json) (fuel : Nat)
    (h : (fetch_issues search fuel).2 = .error ()) :
    main search ruleServer fuel = none := by
  rcases hfe : fetch_issues search fuel with ⟨tr, res⟩
  rw [hfe] at h
  simp at h
  rw [h] at hfe
  simp [main, hfe]

/-- Claim C3: if any network request fails — an issue-search page request
that the fetcher issues (first conjunct) or a rule lookup for a key the
enricher requests (second conjunct) — the run aborts and the output file
is neither created nor modified (`main` yields `none`), and no request is
retried (third conjunct: the page-request trace never repeats a request;
the enrichment loop stops at the first failed rule lookup by
construction). -/
theorem c3_failure_aborts :
    (∀ (search : Nat × Nat → Except Unit Json) (ruleServer : Json → Except Unit Json)
        (fuel q : Nat),
        (500, q) ∈ (fetch_issues search fuel).1 →
        search (500, q) = .error () →
        main search ruleServer fuel = none) ∧
    (∀ (search : Nat × Nat → Except Unit Json) (ruleServer : Json → Except Unit Json)
        (fuel : Nat) (k : Json),
        k ∈ mainRuleTrace search ruleServer fuel →
        ruleServer k = .error () →
        main search ruleServer fuel = none) ∧
    (∀ (search : Nat × Nat → Except Unit Json) (fuel : Nat),
        (fetch_issues search fuel).1.Nodup) := by
  refine ⟨?_, ?_, fetch_issues_trace_nodup⟩
  · intro search ruleServer fuel q hq he
    exact main_none_of_fetch_err search ruleServer fuel
      (fetchIssuesLoop_err_of_mem_trace search fuel 1 [] none q hq he)
  · intro search ruleServer fuel k hk he
    rcases hfe : fetch_issues search fuel with ⟨tr, res⟩
    cases res with
    | error e => simp [main, hfe]
    | ok data =>
      cases data with
      | obj fs =>
        cases hlf : lookupField fs "issues" with
        | none => simp [main, hfe, hlf]
        | some j =>
          cases j with
          | arr issues =>
            rw [mainRuleTrace, hfe] at hk
            simp only [hlf] at hk
            have hok := um_err_of_mem_trace (fetch_rule_details ruleServer) issues k hk
              (fetch_rule_details_err ruleServer k he)
            simp [main, hfe, hlf, hok]
          | null => simp [main, hfe, hlf]
          | bool b => simp [main, hfe, hlf]
          | num n => simp [main, hfe, hlf]
          | str s => simp [main, hfe, hlf]
          | obj fs2 => simp [main, hfe, hlf]
      | null => simp [main, hfe]
      | bool b => simp [main, hfe]
      | num n => simp [main, hfe]
      | str s => simp [main, hfe]
      | arr xs => simp [main, hfe]

/-- Witness for C3: a search endpoint that always returns a 500 makes the
run write nothing, and so does a failing rules endpoint after a successful
single-page fetch of one enrichable issue. -/
theorem c3_failure_aborts_witness :
    main (fun _ => Except.error ()) (fun _ => Except.error ()) 1 = none ∧
    main
      (fun q => if q = (500, 1)
        then Except.ok (Json.obj [("issues",
          Json.arr [Json.obj [("rule", Json.str "R"), ("message", Json.str "M")]])])
        else Except.error ())
      (fun _ => Except.error ()) 1 = none :=
  ⟨c3_failure_aborts.1 (fun _ => Except.error ()) (fun _ => Except.error ()) 1 1
      (by decide) rfl,
   c3_failure_aborts.2.1
      (fun q => if q = (500, 1)
        then Except.ok (Json.obj [("issues",
          Json.arr [Json.obj [("rule", Json.str "R"), ("message", Json.str "M")]])])
        else Except.error ())
      (fun _ => Except.error ()) 1 (Json.str "R")
      (List.mem_singleton.mpr rfl) rfl⟩

/-- Counterexample to C4: when the first page's response body is the empty
object (which is falsy in Python, so line 43's `if first_page_data:` skips
the assignment), `fetch_issues` returns the empty object unchanged — its
`issues` field is NOT replaced by the accumulated sequence `[]`, which
would give `{"issues": []}`. -/
theorem c4_counterexample :
    (fetch_issues (fun _ => Except.ok (Json.obj [])) 5).2 = Except.ok (Json.obj []) ∧
    Json.obj [] ≠ Json.obj [("issues", Json.arr [])] :=
  ⟨rfl, by simp⟩

/-- Claim C4 (amended): provided the first page's response body is truthy
(here: an object with at least one field, which holds as soon as it
carries an `issues` binding), `fetch_issues` returns the first page's full
response body with its `issues` field replaced by the accumulated issue
sequence from all pages, and every field of the envelope other than
`issues` is left equal to the first page's original value.  (Stated for a
two-page run: page 1's metadata says continue, page 2's says stop.) -/
theorem c4_envelope (search : Nat × Nat → Except Unit Json) (fuel : Nat)
    (fs1 fs2 : List (String × Json)) (l1 l2 : List Json)
    (pg1 pg2 : List (String × Json)) (pi1 ps1 t1 pi2 ps2 t2 : Int)
    (h1 : search (500, 1) = .ok (Json.obj fs1))
    (h1i : lookupField fs1 "issues" = some (Json.arr l1))
    (h1p : lookupField fs1 "paging" = some (Json.obj pg1))
    (h1a : getNumD pg1 "pageIndex" 1 = .ok pi1)
    (h1b : getNumD pg1 "pageSize" 500 = .ok ps1)
    (h1c : getNumD pg1 "total" 0 = .ok t1)
    (hcont : pi1 * ps1 < t1)
    (h2 : search (500, 2) = .ok (Json.obj fs2))
    (h2i : lookupField fs2 "issues" = some (Json.arr l2))
    (h2p : lookupField fs2 "paging" = some (Json.obj pg2))
    (h2a : getNumD pg2 "pageIndex" 1 = .ok pi2)
    (h2b : getNumD pg2 "pageSize" 500 = .ok ps2)
    (h2c : getNumD pg2 "total" 0 = .ok t2)
    (hstop : t2 ≤ pi2 * ps2) :
    fetch_issues search (fuel + 1 + 1) =
      ([(500, 1), (500, 2)],
       .ok (Json.obj (setField fs1 "issues" (Json.arr (l1 ++ l2))))) ∧
    lookupField (setField fs1 "issues" (Json.arr (l1 ++ l2))) "issues" =
      some (Json.arr (l1 ++ l2)) ∧
    (∀ key : String, key ≠ "issues" →
      lookupField (setField fs1 "issues" (Json.arr (l1 ++ l2))) key = lookupField fs1 key) := by
  have hpd1 : pageData (Json.obj fs1) = .ok (l1, pi1, ps1, t1) := by
    simp [pageData, getIssues, getPaging, h1i, h1p, h1a, h1b, h1c]
  have hpd2 : pageData (Json.obj fs2) = .ok (l2, pi2, ps2, t2) := by
    simp [pageData, getIssues, getPaging, h2i, h2p, h2a, h2b, h2c]
  refine ⟨?_, lookupField_setField_self fs1 "issues" (Json.arr (l1 ++ l2)),
    fun key hk => lookupField_setField_ne fs1 "issues" key (Json.arr (l1 ++ l2)) hk⟩
  rw [fetch_issues,
    fetchIssuesLoop_cont search (fuel + 1) 1 [] none (Json.obj fs1) l1 pi1 ps1 t1 h1 hpd1 hcont,
    fetchIssuesLoop_stop search fuel 2 ([] ++ l1) (some ((none : Option Json).getD (Json.obj fs1)))
      (Json.obj fs2) l2 pi2 ps2 t2 h2 hpd2 hstop]
  simp [assignIssues, Json.truthy, lookupField_ne_nil h1i]

/-- Witness for C4: a concrete two-page run (page sizes 1, total 2) where
the envelope's extra `paging` field survives and `issues` is replaced by
the two pages' issues in order. -/
theorem c4_envelope_witness :
    fetch_issues
        (fun q => if q = (500, 1)
          then Except.ok (Json.obj [("issues", Json.arr [Json.num 1]),
            ("paging", Json.obj [("pageIndex", Json.num 1), ("pageSize", Json.num 1),
              ("total", Json.num 2)])])
          else if q = (500, 2)
          then Except.ok (Json.obj [("issues", Json.arr [Json.num 2]),
            ("paging", Json.obj [("pageIndex", Json.num 2), ("pageSize", Json.num 1),
              ("total", Json.num 2)])])
          else Except.error ()) (0 + 1 + 1) =
      ([(500, 1), (500, 2)],
       .ok (Json.obj (setField [("issues", Json.arr [Json.num 1]),
          ("paging", Json.obj [("pageIndex", Json.num 1), ("pageSize", Json.num 1),
            ("total", Json.num 2)])] "issues" (Json.arr ([Json.num 1] ++ [Json.num 2]))))) :=
  (c4_envelope
    (fun q => if q = (500, 1)
      then Except.ok (Json.obj [("issues", Json.arr [Json.num 1]),
        ("paging", Json.obj [("pageIndex", Json.num 1), ("pageSize", Json.num 1),
          ("total", Json.num 2)])])
      else if q = (500, 2)
      then Except.ok (Json.obj [("issues", Json.arr [Json.num 2]),
        ("paging", Json.obj [("pageIndex", Json.num 2), ("pageSize", Json.num 1),
          ("total", Json.num 2)])])
      else Except.error ()) 0
    [("issues", Json.arr [Json.num 1]),
      ("paging", Json.obj [("pageIndex", Json.num 1), ("pageSize", Json.num 1),
        ("total", Json.num 2)])]
    [("issues", Json.arr [Json.num 2]),
      ("paging", Json.obj [("pageIndex", Json.num 2), ("pageSize", Json.num 1),
        ("total", Json.num 2)])]
    [Json.num 1] [Json.num 2]
    [("pageIndex", Json.num 1), ("pageSize", Json.num 1), ("total", Json.num 2)]
    [("pageIndex", Json.num 2), ("pageSize", Json.num 1), ("total", Json.num 2)]
    1 1 2 2 1 2
    rfl rfl rfl rfl rfl rfl (by norm_num)
    rfl rfl rfl rfl rfl rfl (by norm_num)).1

theorem mapExcept_impactLine (es : List (Option String × Option String)) :
    mapExcept impactLine (es.map impactEntry) =
      .ok (es.map (fun e =>
        "Software Quality: " ++ e.1.getD "N/A" ++ ", Severity: " ++ e.2.getD "N/A")) := by
  induction es with
  | nil => rfl
  | cons e rest ih =>
    obtain ⟨sq, sv⟩ := e
    cases sq <;> cases sv <;>
      simp [mapExcept, impactEntry, impactLine, optStrField, lookupField, pyStr, ih]

/-- Counterexample to C5: the code strips the joined impact text
(line 72, `impact_details.strip()`), so for an impact entry whose severity
value `"Y "` ends in whitespace the returned impact text is
`"Software Quality: X, Severity: Y"`, not the claimed per-line format
`"Software Quality: X, Severity: Y "`. -/
theorem c5_counterexample :
    fetch_rule_details
        (fun _ => Except.ok (Json.obj [("rule", Json.obj [("impacts",
          Json.arr [Json.obj [("softwareQuality", Json.str "X"), ("severity", Json.str "Y ")]])])]))
        (Json.str "k") =
      Except.ok ("Rule Key: None\nName: None\nSeverity: None\nDescription:",
        "Software Quality: X, Severity: Y") ∧
    "Software Quality: X, Severity: Y" ≠ "Software Quality: X, Severity: Y " :=
  ⟨rfl, by decide⟩

/-- Claim C5 (amended): `fetch_rule_details` builds its impact text by
joining one line per impact entry, in server order, with newline
separators, each line formatted as
`Software Quality: <value or "N/A">, Severity: <value or "N/A">`, and then
strips leading/trailing whitespace from the joined text (so surrounding
whitespace of the first/last values is removed; for values with no
surrounding whitespace the text is exactly the join).  For a rule with an
empty `impacts` list the impact text is the empty string, and the enriched
message then still contains the `Impact:` marker followed immediately by
`Original:`. -/
theorem c5_impact_join :
    (∀ (es : List (Option String × Option String)) (k : Json),
      fetch_rule_details (fun _ => .ok (impactsBody es)) k =
        .ok ("Rule Key: None\nName: None\nSeverity: None\nDescription:",
          pyStrip (String.intercalate "\n" (es.map (fun e =>
            "Software Quality: " ++ e.1.getD "N/A" ++ ", Severity: " ++ e.2.getD "N/A"))))) ∧
    (∀ k : Json,
      fetch_rule_details
          (fun _ => .ok (Json.obj [("rule", Json.obj [("impacts", Json.arr [])])])) k =
        .ok ("Rule Key: None\nName: None\nSeverity: None\nDescription:", "")) ∧
    (∀ m : String,
      (update_messages
          (fetch_rule_details (fun _ => .ok (Json.obj [("rule", Json.obj [("impacts", Json.arr [])])])))
          [Json.obj [("rule", Json.str "R"), ("message", Json.str m)]]).issues =
        [Json.obj [("rule", Json.str "R"), ("message",
          Json.str ("Mitigation: Rule Key: None\nName: None\nSeverity: None\nDescription:"
            ++ "\nImpact: " ++ "" ++ "\nOriginal: " ++ m))]]) := by
  refine ⟨?_, fun k => rfl, ?_⟩
  · intro es k
    cases es with
    | nil => rfl
    | cons e rest =>
      have hmap := mapExcept_impactLine (e :: rest)
      simp only [List.map_cons] at hmap
      have hmit : pyStrip ("\nRule Key: " ++ pyStr none ++ "\nName: " ++ pyStr none
          ++ "\nSeverity: " ++ pyStr none ++ "\nDescription: " ++ pyStrip "" ++ "\n") =
          "Rule Key: None\nName: None\nSeverity: None\nDescription:" := by decide
      simp [fetch_rule_details, impactsBody, lookupField, getHtmlDesc, impactText,
        Json.truthy, hmap, hmit]
  · intro m
    rw [um_cons_msg (fetch_rule_details (fun _ => .ok (Json.obj [("rule",
          Json.obj [("impacts", Json.arr [])])])))
        [("rule", Json.str "R"), ("message", Json.str m)] []
        (Json.str m) (Json.str "R")
        "Rule Key: None\nName: None\nSeverity: None\nDescription:" "" rfl rfl rfl]
    simp [update_messages, setField, pyStr]

/-- Witness for C5: one impact entry with both fields present and one with
both missing produce the two expected lines joined by a newline, and a
concrete message is enriched with an empty impact text between the
`Impact:` and `Original:` markers. -/
theorem c5_impact_join_witness :
    fetch_rule_details
        (fun _ => .ok (impactsBody [(some "X", some "Y"), (none, none)])) (Json.str "k") =
      .ok ("Rule Key: None\nName: None\nSeverity: None\nDescription:",
        pyStrip (String.intercalate "\n"
          ([(some "X", some "Y"), (none, none)].map (fun e =>
            "Software Quality: " ++ e.1.getD "N/A" ++ ", Severity: " ++ e.2.getD "N/A")))) ∧
    (update_messages
        (fetch_rule_details (fun _ => .ok (Json.obj [("rule", Json.obj [("impacts", Json.arr [])])])))
        [Json.obj [("rule", Json.str "R"), ("message", Json.str "M1")]]).issues =
      [Json.obj [("rule", Json.str "R"), ("message",
        Json.str ("Mitigation: Rule Key: None\nName: None\nSeverity: None\nDescription:"
          ++ "\nImpact: " ++ "" ++ "\nOriginal: " ++ "M1"))]] :=
  ⟨c5_impact_join.1 [(some "X", some "Y"), (none, none)] (Json.str "k"),
   c5_impact_join.2.2 "M1"⟩

/-- Claim C6: an issue without a `message` field, placed anywhere after a
prefix the enricher processed without an exception, is left structurally
unchanged by `update_messages` — no rule lookup is performed for it (the
request trace is exactly the prefix's trace followed by the suffix's) and
it sits unchanged between the processed prefix and suffix, so order is
preserved; and (second conjunct) the issue list's length is always
preserved. -/
theorem c6_no_message_untouched :
    (∀ (f : Json → Except Unit (String × String)) (l1 l2 : List Json) (issue : Json),
      (update_messages f l1).ok = true →
      memMessage issue = .ok false →
      update_messages f (l1 ++ issue :: l2) =
        ⟨(update_messages f l1).issues ++ issue :: (update_messages f l2).issues,
         (update_messages f l1).trace ++ (update_messages f l2).trace,
         (update_messages f l2).ok⟩) ∧
    (∀ (f : Json → Except Unit (String × String)) (l : List Json),
      (update_messages f l).issues.length = l.length) := by
  refine ⟨?_, um_issues_length⟩
  intro f l1 l2 issue h1 hm
  have hs : stepIssue f issue = .updated issue [] := by
    simp [stepIssue, hm]
  rw [um_append f l1 (issue :: l2) h1]
  simp [update_messages, hs]

/-- Witness for C6: an issue carrying only a `rule` field passes through a
one-element enrichment run untouched, with an empty rule-request trace. -/
theorem c6_no_message_untouched_witness :
    update_messages (fun _ => Except.ok ("mit", "imp"))
        ([] ++ Json.obj [("rule", Json.str "R")] :: []) =
      ⟨[] ++ Json.obj [("rule", Json.str "R")] :: [], [] ++ [], true⟩ :=
  c6_no_message_untouched.1 (fun _ => Except.ok ("mit", "imp")) [] []
    (Json.obj [("rule", Json.str "R")]) rfl rfl

/-- Counterexample to C7: a collection of 1 issue that has no `message`
field triggers 0 rule-lookup requests, not 1 — the Rule Detail Fetcher is
not invoked once per issue of the fetched collection. -/
theorem c7_counterexample :
    [Json.obj [("rule", Json.str "R")]].length = 1 ∧
    (update_messages (fun _ => Except.ok ("", ""))
      [Json.obj [("rule", Json.str "R")]]).trace.length = 0 ∧
    (0 : Nat) ≠ 1 :=
  ⟨rfl, rfl, by decide⟩

/-- Claim C7 (amended): the Rule Detail Fetcher is invoked exactly once
per issue that has a `message` field, with no deduplication or caching by
rule key: for a collection of n issues all carrying `message` (and `rule`)
fields whose lookups succeed, exactly n rule-lookup requests are made, the
request trace is exactly the issues' rule keys in order, and the same rule
key may be fetched many times in one run (issues lacking `message` trigger
no request, per the C7 counterexample). -/
theorem c7_one_request_per_message_issue (f : Json → Except Unit (String × String))
    (issues : List Json)
    (h : ∀ i ∈ issues, ∃ fs m rk v, i = Json.obj fs ∧
      lookupField fs "message" = some m ∧ lookupField fs "rule" = some rk ∧ f rk = .ok v) :
    (update_messages f issues).trace = issues.filterMap ruleField ∧
    (update_messages f issues).trace.length = issues.length ∧
    (update_messages f issues).ok = true := by
  induction issues with
  | nil => exact ⟨rfl, rfl, rfl⟩
  | cons i rest ih =>
    obtain ⟨fs, m, rk, v, hi, hm, hr, hf⟩ := h i (List.mem_cons_self i rest)
    subst hi
    obtain ⟨ih1, ih2, ih3⟩ := ih (fun j hj => h j (List.mem_cons_of_mem _ hj))
    obtain ⟨mit, imp⟩ := v
    rw [um_cons_msg f fs rest m rk mit imp hm hr hf]
    refine ⟨?_, ?_, ?_⟩
    · simp [ruleField, hr, ih1]
    · simp [ih2]
    · exact ih3

/-- Witness for C7: two issues referencing the same rule key `"R"` cause
two rule-lookup requests for `"R"` — one per issue, no deduplication. -/
theorem c7_one_request_per_message_issue_witness :
    (update_messages (fun _ => Except.ok ("", ""))
        [Json.obj [("message", Json.str "a"), ("rule", Json.str "R")],
         Json.obj [("message", Json.str "b"), ("rule", Json.str "R")]]).trace =
      [Json.obj [("message", Json.str "a"), ("rule", Json.str "R")],
       Json.obj [("message", Json.str "b"), ("rule", Json.str "R")]].filterMap ruleField ∧
    (update_messages (fun _ => Except.ok ("", ""))
        [Json.obj [("message", Json.str "a"), ("rule", Json.str "R")],
         Json.obj [("message", Json.str "b"), ("rule", Json.str "R")]]).trace.length =
      [Json.obj [("message", Json.str "a"), ("rule", Json.str "R")],
       Json.obj [("message", Json.str "b"), ("rule", Json.str "R")]].length ∧
    (update_messages (fun _ => Except.ok ("", ""))
        [Json.obj [("message", Json.str "a"), ("rule", Json.str "R")],
         Json.obj [("message", Json.str "b"), ("rule", Json.str "R")]]).ok = true :=
  c7_one_request_per_message_issue (fun _ => Except.ok ("", ""))
    [Json.obj [("message", Json.str "a"), ("rule", Json.str "R")],
     Json.obj [("message", Json.str "b"), ("rule", Json.str "R")]]
    (by
      intro i hi
      simp only [List.mem_cons, List.not_mem_nil, or_false] at hi
      rcases hi with rfl | rfl
      · exact ⟨[("message", Json.str "a"), ("rule", Json.str "R")],
          Json.str "a", Json.str "R", ("", ""), rfl, rfl, rfl, rfl⟩
      · exact ⟨[("message", Json.str "b"), ("rule", Json.str "R")],
          Json.str "b", Json.str "R", ("", ""), rfl, rfl, rfl, rfl⟩)

/-- Claim C8: a page response whose `paging` object, or any of its
`pageIndex`, `pageSize`, `total` fields, is missing gets the defaults 1,
500 and 0 in the stop condition (first three conjuncts); a response whose
`paging` is missing entirely therefore satisfies `1 * 500 >= 0` and
pagination terminates at that page (fourth conjunct); in particular a
single response without paging metadata causes exactly one page request
(fifth conjunct). -/
theorem c8_paging_defaults :
    (∀ pgf : List (String × Json), lookupField pgf "pageIndex" = none →
      getNumD pgf "pageIndex" 1 = .ok 1) ∧
    (∀ pgf : List (String × Json), lookupField pgf "pageSize" = none →
      getNumD pgf "pageSize" 500 = .ok 500) ∧
    (∀ pgf : List (String × Json), lookupField pgf "total" = none →
      getNumD pgf "total" 0 = .ok 0) ∧
    (∀ (search : Nat × Nat → Except Unit Json) (fuel p : Nat) (acc : List Json)
        (first : Option Json) (fs : List (String × Json)) (li : List Json),
      search (500, p) = .ok (Json.obj fs) →
      getIssues (Json.obj fs) = .ok li →
      lookupField fs "paging" = none →
      (fetchIssuesLoop search (fuel + 1) p acc first).1 = [(500, p)]) ∧
    (∀ (l : List Json) (fuel : Nat),
      fetch_issues (fun _ => .ok (Json.obj [("issues", Json.arr l)])) (fuel + 1) =
        ([(500, 1)], .ok (Json.obj [("issues", Json.arr l)]))) := by
  refine ⟨?_, ?_, ?_, ?_, ?_⟩
  · intro pgf h
    simp [getNumD, h]
  · intro pgf h
    simp [getNumD, h]
  · intro pgf h
    simp [getNumD, h]
  · intro search fuel p acc first fs li hd hi hp
    have hpd : pageData (Json.obj fs) = .ok (li, 1, 500, 0) := by
      simp [pageData, hi, getPaging, hp, getNumD, lookupField]
    rw [fetchIssuesLoop_stop search fuel p acc first (Json.obj fs) li 1 500 0 hd hpd
      (by norm_num)]
  · intro l fuel
    have hpd : pageData (Json.obj [("issues", Json.arr l)]) = .ok (l, 1, 500, 0) := by
      simp [pageData, getIssues, getPaging, getNumD, lookupField]
    rw [fetch_issues, fetchIssuesLoop_stop (fun _ => .ok (Json.obj [("issues", Json.arr l)]))
      fuel 1 [] none (Json.obj [("issues", Json.arr l)]) l 1 500 0 rfl hpd (by norm_num)]
    simp [assignIssues, Json.truthy, setField]

/-- Witness for C8: on a concrete paging dict carrying none of the three
fields the defaults are read back, and a one-page server without paging
metadata is queried exactly once. -/
theorem c8_paging_defaults_witness :
    getNumD [("x", Json.null)] "pageIndex" 1 = .ok 1 ∧
    getNumD [("x", Json.null)] "pageSize" 500 = .ok 500 ∧
    getNumD [("x", Json.null)] "total" 0 = .ok 0 ∧
    (fetchIssuesLoop (fun _ => .ok (Json.obj [("issues", Json.arr [Json.num 7])]))
      (0 + 1) 1 [] none).1 = [(500, 1)] ∧
    fetch_issues (fun _ => .ok (Json.obj [("issues", Json.arr [Json.num 7])])) (0 + 1) =
      ([(500, 1)], .ok (Json.obj [("issues", Json.arr [Json.num 7])])) :=
  ⟨c8_paging_defaults.1 [("x", Json.null)] rfl,
   c8_paging_defaults.2.1 [("x", Json.null)] rfl,
   c8_paging_defaults.2.2.1 [("x", Json.null)] rfl,
   c8_paging_defaults.2.2.2.1 (fun _ => .ok (Json.obj [("issues", Json.arr [Json.num 7])]))
     0 1 [] none [("issues", Json.arr [Json.num 7])] [Json.num 7] rfl rfl rfl,
   c8_paging_defaults.2.2.2.2 [Json.num 7] 0⟩

/-- Counterexample to C9: `fetch_rule_details` does NOT succeed on any
response body regardless of shape — a body that is the number 5 makes
`response.json().get("rule", {})` raise (`AttributeError`), so the call
fails instead of rendering `None` placeholders. -/
theorem c9_counterexample :
    fetch_rule_details (fun _ => Except.ok (Json.num 5)) (Json.str "k") = Except.error () :=
  rfl

/-- Claim C9 (amended): `fetch_rule_details` succeeds on any rule-lookup
response body that is an object whose `rule` field, when present, is an
object (with `htmlDesc`, when present, a string, and `impacts`, when
present, falsy or a list of objects): if the `rule` object (first
conjunct) or its `key`, `name`, `severity` fields (second conjunct) are
absent they render as the literal text `None` in the mitigation block, and
an absent `htmlDesc` renders as an empty description; no error is raised
for missing fields.  (A non-object body or a non-object `rule` value does
raise, per the C9 counterexample.) -/
theorem c9_missing_fields :
    (∀ (bfs : List (String × Json)) (k : Json),
      lookupField bfs "rule" = none →
      fetch_rule_details (fun _ => .ok (Json.obj bfs)) k =
        .ok ("Rule Key: None\nName: None\nSeverity: None\nDescription:", "")) ∧
    (∀ (bfs fsr : List (String × Json)) (k : Json),
      lookupField bfs "rule" = some (Json.obj fsr) →
      lookupField fsr "key" = none →
      lookupField fsr "name" = none →
      lookupField fsr "severity" = none →
      lookupField fsr "htmlDesc" = none →
      lookupField fsr "impacts" = none →
      fetch_rule_details (fun _ => .ok (Json.obj bfs)) k =
        .ok ("Rule Key: None\nName: None\nSeverity: None\nDescription:", "")) := by
  constructor
  · intro bfs k h
    simp only [fetch_rule_details, h, getHtmlDesc, impactText, lookupField]
    rfl
  · intro bfs fsr k h hk hn hs hh hi
    simp only [fetch_rule_details, h, Option.getD, getHtmlDesc, impactText, hk, hn, hs, hh, hi]
    rfl

/-- Witness for C9: a body with no `rule` field and a body whose `rule`
object carries only an unrelated field both yield the all-`None`
mitigation block and an empty impact text. -/
theorem c9_missing_fields_witness :
    fetch_rule_details (fun _ => .ok (Json.obj [("x", Json.null)])) (Json.str "k") =
      .ok ("Rule Key: None\nName: None\nSeverity: None\nDescription:", "") ∧
    fetch_rule_details (fun _ => .ok (Json.obj [("rule", Json.obj [("y", Json.num 3)])]))
        (Json.str "k") =
      .ok ("Rule Key: None\nName: None\nSeverity: None\nDescription:", "") :=
  ⟨c9_missing_fields.1 [("x", Json.null)] (Json.str "k") rfl,
   c9_missing_fields.2 [("rule", Json.obj [("y", Json.num 3)])] [("y", Json.num 3)]
     (Json.str "k") rfl rfl rfl rfl rfl rfl⟩

/-- Claim C10: `update_messages` requires every issue that has a `message`
field to also have a `rule` field: when such an issue (with `message` but
no `rule`) follows a prefix that was processed without an exception,
enrichment fails with a key-lookup error instead of skipping the issue —
the loop stops (`ok = false`), the issue and everything after it are left
untouched, no rule request is made for it, and the issues earlier in the
sequence have already been mutated when the failure occurs (the list state
is the processed prefix followed by the raw remainder: enrichment is not
atomic over the sequence). -/
theorem c10_missing_rule_fails (f : Json → Except Unit (String × String))
    (l1 l2 : List Json) (fs : List (String × Json))
    (h1 : (update_messages f l1).ok = true)
    (hm : (lookupField fs "message").isSome = true)
    (hr : lookupField fs "rule" = none) :
    update_messages f (l1 ++ Json.obj fs :: l2) =
      ⟨(update_messages f l1).issues ++ Json.obj fs :: l2,
       (update_messages f l1).trace, false⟩ := by
  have hs : stepIssue f (Json.obj fs) = .failed [] := by
    simp [stepIssue, memMessage, hm, hr]
  rw [um_append f l1 (Json.obj fs :: l2) h1]
  simp [update_messages, hs]

/-- Witness for C10: a run over an enrichable issue followed by an issue
with `message` but no `rule` stops with the first issue already rewritten,
the offending issue untouched, and only the first issue's rule key in the
request trace. -/
theorem c10_missing_rule_fails_witness :
    update_messages (fun _ => Except.ok ("mit", "imp"))
        ([Json.obj [("message", Json.str "M"), ("rule", Json.str "R")]]
          ++ Json.obj [("message", Json.str "M2")] :: []) =
      ⟨(update_messages (fun _ => Except.ok ("mit", "imp"))
          [Json.obj [("message", Json.str "M"), ("rule", Json.str "R")]]).issues
        ++ Json.obj [("message", Json.str "M2")] :: [],
       (update_messages (fun _ => Except.ok ("mit", "imp"))
          [Json.obj [("message", Json.str "M"), ("rule", Json.str "R")]]).trace,
       false⟩ :=
  c10_missing_rule_fails (fun _ => Except.ok ("mit", "imp"))
    [Json.obj [("message", Json.str "M"), ("rule", Json.str "R")]] []
    [("message", Json.str "M2")] rfl rfl rfl

end AddMitigationImpact
